import Mathlib

set_option maxRecDepth 4000

/-!
Shallow embedding of the HR news aggregation backend (`Gnews_backend.py`):
input sanitization, topic resolution, RSS fetch with per-day / lookback date
windows and timezone matching, the article / summary caches, the summarizer
orchestration loop, and the per-user conversation history, together with
theorems settling the specification claims about them.

Modelling conventions:
* Python `datetime` values are seconds (`Int`) on a naive clock plus an
  optional fixed UTC-offset (`Option Int`, in seconds) standing for `tzinfo`;
  `datetime.now()` is naive.  Microseconds are not modelled (all claims are
  at whole-second granularity).
* External collaborators (the feed parser, the OpenAI summarizer and
  classifier, the prompt file) are oracle parameters: the feed parser's
  output is the `parsed` field of each `Feed`, the summarizer / classifier
  are functions returning `Option` (`none` = the call raised after retries).
* Python dicts are association lists preserving insertion order; the cache
  keys `f"{title}:{topic}"` and `f"{topic}:{date}"` are modelled as pairs,
  which is injective here because the five topic identifiers are fixed and
  contain no colon, and the date component contains no colon.
* `re` character classes and `str.lower` are modelled at ASCII granularity,
  which covers every string the program and the claims use.
-/

/-! ### Python string helpers -/

/-- Python `str.lower()` on a character list (ASCII granularity). -/
def pyLowerChars (s : List Char) : List Char := s.map Char.toLower

/-- Python `str.lower()`. -/
def pyLower (s : String) : String := String.mk (pyLowerChars s.toList)

/-- Python `str.strip()`: drop leading and trailing whitespace. -/
def pyStrip (s : String) : String :=
  String.mk (((s.toList.dropWhile Char.isWhitespace).reverse.dropWhile
    Char.isWhitespace).reverse)

/-- ASCII reading of the regex class `\w` in `re.sub(r'[^\w\s.,!?]', '', text)`. -/
def pyIsWordChar (c : Char) : Bool := c.isAlphanum || c == '_'

/-- A character survives `re.sub(r'[^\w\s.,!?]', '', text)`. -/
def pySanitizeKeep (c : Char) : Bool :=
  pyIsWordChar c || c.isWhitespace || c == '.' || c == ',' || c == '!' || c == '?'

/-- Helper for Python `str.split()` (split on whitespace runs, dropping empties). -/
def splitWSAux : List Char → List Char → List (List Char)
  | [], acc => if acc = [] then [] else [acc.reverse]
  | c :: cs, acc =>
    if c.isWhitespace then
      if acc = [] then splitWSAux cs [] else acc.reverse :: splitWSAux cs []
    else
      splitWSAux cs (c :: acc)

/-- Python `text.split()`. -/
def pySplitWS (s : List Char) : List (List Char) := splitWSAux s []

/-- `sanitize_input`: drop characters outside `[\w\s.,!?]`, then
`' '.join(text.split())`. -/
def sanitize_input (text : String) : String :=
  String.mk (List.intercalate [' '] (pySplitWS (text.toList.filter pySanitizeKeep)))

/-- `needle` begins `hay` (on character lists). -/
def startsWithL : List Char → List Char → Bool
  | _, [] => true
  | [], _ :: _ => false
  | c :: cs, d :: ds => c == d && startsWithL cs ds

/-- Python `needle in hay` substring test (on character lists). -/
def containsL : List Char → List Char → Bool
  | [], needle => needle.isEmpty
  | c :: cs, needle => startsWithL (c :: cs) needle || containsL cs needle

/-! ### Topic registry and resolution -/

/-- The fixed registry of topic identifiers (`allowed_topics`). -/
def allowed_topics : List String :=
  ["hr strategy and leadership",
   "workforce compliance and regulation",
   "talent acquisition and labor trends",
   "compensation, benefits and rewards",
   "people development and culture"]

/-- `topic.lower() in query.lower()`. -/
def topicMatches (query topic : String) : Bool :=
  containsL (pyLowerChars query.toList) (pyLowerChars topic.toList)

/-- `next((topic for topic in allowed_topics if topic.lower() in query.lower()), None)`. -/
def resolveTopic (query : String) : Option String :=
  allowed_topics.find? (fun t => topicMatches query t)

/-! ### Datetimes -/

/-- A Python `datetime`: a naive clock reading in seconds plus an optional
fixed UTC offset in seconds standing for `tzinfo` (`none` = offset-naive). -/
structure PyDateTime where
  clock : Int
  tz : Option Int
deriving DecidableEq, Repr

/-- Value used by Python's comparison of two datetimes of like awareness:
aware datetimes compare by UTC instant, naive ones by clock.  (Python raises
`TypeError` on mixed comparisons; in `fetch_news` the operands always have
like awareness after `match_tz`, see `match_tz_tz_isSome`.) -/
def pyCompVal (d : PyDateTime) : Int := d.clock - d.tz.getD 0

/-- `a <= b` on like-awareness datetimes. -/
def dtLE (a b : PyDateTime) : Bool := decide (pyCompVal a ≤ pyCompVal b)

/-- `a < b` on like-awareness datetimes. -/
def dtLT (a b : PyDateTime) : Bool := decide (pyCompVal a < pyCompVal b)

/-- `match_tz(dt, ref_dt)` from `fetch_news`: reinterpret `dt`'s clock in
`ref_dt`'s awareness, never converting the clock value. -/
def match_tz (dt ref : PyDateTime) : PyDateTime :=
  match dt.tz, ref.tz with
  | some _, none => ⟨dt.clock, none⟩
  | none, some t => ⟨dt.clock, some t⟩
  | _, _ => dt

/-- `d.replace(hour=0, minute=0, second=0, microsecond=0)`: floor the clock
to the day boundary (86400 s), keeping `tzinfo`. -/
def pyMidnight (d : PyDateTime) : PyDateTime := ⟨d.clock - d.clock % 86400, d.tz⟩

/-- Midnight (in seconds) of the calendar day containing naive instant `t`;
this is the day encoded by `strftime('%Y-%m-%d')` / parsed by
`strptime(..., '%Y-%m-%d')`. -/
def midnightOf (t : Int) : Int := t - t % 86400

/-! ### Feed model and `fetch_news` -/

/-- A raw feed entry as the feed-parsing collaborator returns it.
`published = none` models an absent `published` field; `some none` models a
present field whose `dateutil` parse raises; `some (some d)` a field parsing
to `d`. -/
structure RawEntry where
  title : String
  link : String
  summary : String
  published : Option (Option PyDateTime)
deriving DecidableEq, Repr

/-- A registered feed source together with the feed parser's output for its
URL (`parsed = none` models `feedparser.parse`/iteration raising, which the
per-feed `except` logs and skips). -/
structure Feed where
  name : String
  url : String
  parsed : Option (List RawEntry)
deriving DecidableEq, Repr

/-- A normalized article as built inside `fetch_news`. -/
structure Article where
  title : String
  url : String
  description : String
  content : String
  sourceName : String
  sourceUrl : String
  publishedAt : PyDateTime
deriving DecidableEq, Repr

/-- `published_dt`: the parsed `published` field, substituting `now` when
the field is absent or fails to parse. -/
def entryPublished (now : PyDateTime) (e : RawEntry) : PyDateTime :=
  match e.published with
  | some (some d) => d
  | some none => now
  | none => now

/-- The per-call windowing configuration of `fetch_news`. -/
structure FetchCfg where
  now : PyDateTime
  per_day : Bool
  max_results : Nat
  day_start : PyDateTime
  day_end : PyDateTime
  lookback_start : PyDateTime
deriving DecidableEq

/-- Per-day window test `ds <= published_dt < de` after `match_tz`. -/
def inWindowPerDay (day_start day_end published : PyDateTime) : Bool :=
  dtLE (match_tz day_start published) published &&
    dtLT published (match_tz day_end published)

/-- Lookback window test `not (published_dt < lbs)` after `match_tz`. -/
def inWindowLookback (lookback_start published : PyDateTime) : Bool :=
  ! dtLT published (match_tz lookback_start published)

/-- The date filter applied to one parsed timestamp. -/
def entryKeep (cfg : FetchCfg) (pd : PyDateTime) : Bool :=
  if cfg.per_day then inWindowPerDay cfg.day_start cfg.day_end pd
  else inWindowLookback cfg.lookback_start pd

/-- The article dict built for an accepted entry. -/
def mkArticle (feedName feedUrl title : String) (e : RawEntry) (pd : PyDateTime) : Article :=
  ⟨title, e.link, e.summary, e.summary, feedName, feedUrl, pd⟩

/-- The entry loop of `fetch_news` over one feed: returns the updated
`seen_titles`, the accumulated articles, and whether the inner
`break` (lookback mode reaching `max_results`) fired. -/
def fetchEntries (cfg : FetchCfg) (fname furl : String) :
    List RawEntry → List String → List Article → List String × List Article × Bool
  | [], seen, acc => (seen, acc, false)
  | e :: es, seen, acc =>
    if pyStrip e.title = "" ∨ pyLower (pyStrip e.title) ∈ seen then
      fetchEntries cfg fname furl es seen acc
    else
      if entryKeep cfg (entryPublished cfg.now e) = false then
        fetchEntries cfg fname furl es seen acc
      else
        if cfg.per_day = false ∧ cfg.max_results ≤ acc.length + 1 then
          (pyLower (pyStrip e.title) :: seen,
           acc ++ [mkArticle fname furl (pyStrip e.title) e (entryPublished cfg.now e)], true)
        else
          fetchEntries cfg fname furl es (pyLower (pyStrip e.title) :: seen)
            (acc ++ [mkArticle fname furl (pyStrip e.title) e (entryPublished cfg.now e)])

/-- The feed loop of `fetch_news`: a feed whose parse raised is skipped, and
in lookback mode the loop stops once `max_results` articles are gathered. -/
def fetchFeeds (cfg : FetchCfg) : List Feed → List String → List Article → List Article
  | [], _, acc => acc
  | f :: fs, seen, acc =>
    match f.parsed with
    | none => fetchFeeds cfg fs seen acc
    | some es =>
      match fetchEntries cfg f.name f.url es seen acc with
      | (seen1, acc1, _) =>
        if cfg.per_day = false ∧ cfg.max_results ≤ acc1.length then acc1
        else fetchFeeds cfg fs seen1 acc1

/-- `day_start` of `fetch_news`: midnight of the parsed `target_date`, or
midnight of today when `target_date` is absent (`none`) or its
`strptime` raises (`some none`). -/
def fetchDayStart (nowClock : Int) (target : Option (Option Int)) : PyDateTime :=
  match target with
  | some (some m) => ⟨m, none⟩
  | some none => pyMidnight ⟨nowClock, none⟩
  | none => pyMidnight ⟨nowClock, none⟩

/-- The windowing configuration `fetch_news` builds from its arguments. -/
def mkFetchCfg (nowClock : Int) (max_results : Nat) (days_lookback : Int)
    (per_day : Bool) (target : Option (Option Int)) : FetchCfg :=
  ⟨⟨nowClock, none⟩, per_day, max_results,
   fetchDayStart nowClock target,
   ⟨(fetchDayStart nowClock target).clock + 86400, (fetchDayStart nowClock target).tz⟩,
   ⟨nowClock - days_lookback * 86400, none⟩⟩

/-- `fetch_news(topic, max_results, days_lookback, per_day, target_date)`,
with the registry lookup for the topic and the feed parser's responses
supplied as `feeds`, and `datetime.now()` supplied as the naive clock
`nowClock`. -/
def fetch_news (feeds : List Feed) (nowClock : Int) (max_results : Nat)
    (days_lookback : Int) (per_day : Bool) (target : Option (Option Int)) : List Article :=
  fetchFeeds (mkFetchCfg nowClock max_results days_lookback per_day target) feeds [] []

/-! ### Association-list dictionaries

Python dicts preserve insertion order; assignment to an existing key keeps
its position, assignment to a fresh key appends, and `del` removes. -/

/-- Dict lookup. -/
def alookup {α β : Type} [DecidableEq α] : List (α × β) → α → Option β
  | [], _ => none
  | (k, v) :: t, k1 => if k = k1 then some v else alookup t k1

/-- Dict assignment `d[k] = v`. -/
def aset {α β : Type} [DecidableEq α] : List (α × β) → α → β → List (α × β)
  | [], k, v => [(k, v)]
  | (k0, v0) :: t, k, v => if k0 = k then (k0, v) :: t else (k0, v0) :: aset t k v

/-! ### Summaries, caches, history, and `get_news_summaries` -/

/-- One element of the `summaries` list of a success response.  `tag = none`
models the absence of the `"tag"` key (the cache-hit dict carries no such
key); `timestampClock` stands for the iso-formatted `publishedAt`. -/
structure SummaryRecord where
  title : String
  url : String
  summary : String
  source : String
  published_at : PyDateTime
  tag : Option String
  cached : Bool
deriving DecidableEq, Repr

/-- One element of a user's `conversation_history` list; `timestamp` stands
for the iso-formatted `datetime.now()`. -/
structure ConvEntry where
  role : String
  content : String
  timestamp : Int
  topic : String
  summaries : List SummaryRecord
deriving DecidableEq, Repr

/-- The module-level mutable state: `news_cache` keyed by
`(topic, midnight-of-day)` for `f"{topic}:{date}"`, `summary_cache` keyed by
`(title, topic)` for `f"{title}:{topic}"`, and `conversation_history` keyed
by user id. -/
structure SysState where
  news_cache : List ((String × Int) × List Article)
  summary_cache : List ((String × String) × String)
  conversation_history : List (String × List ConvEntry)
deriving DecidableEq

/-- The external collaborators of one `get_news_summaries` call:
`fetched` is what `fetch_news` returns for the matched topic, `promptOk`
whether `load_prompt` succeeds, `summarize` the final outcome of the retried
`summarize_article` call (`none` = it raised), and `classify` the stripped
reply of the tag-classification call (`none` = it raised). -/
structure Oracle where
  fetched : List Article
  promptOk : Bool
  summarize : Article → Option String
  classify : String → Option String

/-- `topic_map` of `get_topic_tag`. -/
def topic_map : List (String × String) :=
  [("hr strategy and leadership", "Leadership"),
   ("workforce compliance and regulation", "Compliance"),
   ("talent acquisition and labor trends", "Talent"),
   ("compensation, benefits and rewards", "Compensation"),
   ("people development and culture", "Culture")]

/-- `topic_map.values()`, the closed tag set. -/
def tagValues : List String := topic_map.map (fun p => p.2)

/-- `get_topic_tag(matched_topic, article_content)` with the classifier
call abstracted: its reply is taken when it lies in the closed tag set,
otherwise (and on any classifier failure) the static default for the topic. -/
def get_topic_tag (classify : String → Option String)
    (matched_topic article_content : String) : String :=
  match classify (article_content.take 500) with
  | some detected =>
    if detected ∈ tagValues then detected else (alookup topic_map matched_topic).getD "General"
  | none => (alookup topic_map matched_topic).getD "General"

/-- `f"{article.title}\n{description}\n{content}"` as assembled in the
summarization loop. -/
def articleContent (a : Article) : String :=
  a.title ++ "\n" ++ a.description ++ "\n" ++ a.content

/-- The body of the per-article loop of `get_news_summaries`: consult the
summary cache; on miss call the summarizer (a hard failure yields no record
and leaves the cache unchanged), store the fresh summary, classify a tag. -/
def processArticle (classify : String → Option String)
    (summarize : Article → Option String) (matched_topic : String)
    (sc : List ((String × String) × String)) (a : Article) :
    List ((String × String) × String) × Option SummaryRecord :=
  match alookup sc (a.title, matched_topic) with
  | some cachedSummary =>
    (sc, some ⟨a.title, a.url, cachedSummary, a.sourceName, a.publishedAt, none, true⟩)
  | none =>
    match summarize a with
    | some summary =>
      (aset sc (a.title, matched_topic) summary,
       some ⟨a.title, a.url, summary, a.sourceName, a.publishedAt,
             some (get_topic_tag classify matched_topic (articleContent a)), false⟩)
    | none => (sc, none)

/-- The whole summarization loop, threading the summary cache. -/
def summarizeAll (classify : String → Option String)
    (summarize : Article → Option String) (matched_topic : String)
    (sc : List ((String × String) × String)) :
    List Article → List ((String × String) × String) × List SummaryRecord
  | [] => (sc, [])
  | a :: rest =>
    match processArticle classify summarize matched_topic sc a with
    | (sc1, orec) =>
      match summarizeAll classify summarize matched_topic sc1 rest with
      | (sc2, recs) =>
        match orec with
        | some r => (sc2, r :: recs)
        | none => (sc2, recs)

/-- Python `l[-10:]`. -/
def takeLast10 (l : List ConvEntry) : List ConvEntry := l.drop (l.length - 10)

/-- The `if user_id:` block: append the new entry to the user's history and
truncate to the last 10.  Python's truthiness makes both `None` and the
empty string skip the block. -/
def historyStep (ch : List (String × List ConvEntry)) (user_id : Option String)
    (query : String) (nowClock : Int) (topic : String)
    (summaries : List SummaryRecord) : List (String × List ConvEntry) :=
  match user_id with
  | none => ch
  | some uid =>
    if uid = "" then ch
    else
      aset ch uid
        (takeLast10 ((alookup ch uid).getD [] ++ [⟨"user", query, nowClock, topic, summaries⟩]))

/-- The lazy sweep run after inserting into `news_cache`: delete every key
whose date component (midnight of its day) lies more than one day before now. -/
def sweepNews (nowClock : Int)
    (nc : List ((String × Int) × List Article)) : List ((String × Int) × List Article) :=
  nc.filter (fun kv => decide (nowClock - kv.1.2 ≤ 86400))

/-- The article-cache block of `get_news_summaries`: on hit return the
cached list, on miss fetch, insert under `(topic, today)`, and sweep.
Returns `(articles, cached_articles, new news_cache)`. -/
def newsCacheStep (fetched : List Article) (nowClock : Int)
    (nc : List ((String × Int) × List Article)) (matched_topic : String) :
    List Article × Bool × List ((String × Int) × List Article) :=
  match alookup nc (matched_topic, midnightOf nowClock) with
  | some arts => (arts, true, nc)
  | none =>
    (fetched, false, sweepNews nowClock (aset nc (matched_topic, midnightOf nowClock) fetched))

/-- The structured response dict. -/
inductive QueryResult where
  | failure (message : String)
  | success (topic : String) (articles : List SummaryRecord)
      (cached_articles : Bool) (total_articles : Nat)
deriving DecidableEq, Repr

/-- The error message of the empty-input paths. -/
def invalidInputMsg : String := "Please provide a valid topic or query."

/-- The error message of the unknown-topic path, listing the valid topics. -/
def unknownTopicMsg : String :=
  "Please specify one of: " ++ String.intercalate ", " allowed_topics

/-- The error message of the empty-fetch path. -/
def noArticlesMsg (matched_topic : String) : String :=
  "No articles found for topic: " ++ matched_topic

/-- The error message of the prompt-load failure path. -/
def promptFailMsg : String := "Failed to load summarization prompt."

/-- `get_news_summaries(user_input, user_id, prompt_file, model)` as a state
transition on the module-level caches, with `datetime.now()` supplied as the
naive clock `nowClock` and the external collaborators as `orc`. -/
def get_news_summaries (orc : Oracle) (nowClock : Int) (st : SysState)
    (user_input : String) (user_id : Option String) : SysState × QueryResult :=
  if pyStrip user_input = "" then (st, QueryResult.failure invalidInputMsg)
  else if sanitize_input user_input = "" then (st, QueryResult.failure invalidInputMsg)
  else
    match resolveTopic (sanitize_input user_input) with
    | none => (st, QueryResult.failure unknownTopicMsg)
    | some matched_topic =>
      match newsCacheStep orc.fetched nowClock st.news_cache matched_topic with
      | (articles, cached_articles, nc1) =>
        if articles = [] then
          (⟨nc1, st.summary_cache, st.conversation_history⟩,
           QueryResult.failure (noArticlesMsg matched_topic))
        else if orc.promptOk = false then
          (⟨nc1, st.summary_cache, st.conversation_history⟩,
           QueryResult.failure promptFailMsg)
        else
          match summarizeAll orc.classify orc.summarize matched_topic st.summary_cache articles with
          | (sc1, summaries) =>
            (⟨nc1, sc1,
              historyStep st.conversation_history user_id (sanitize_input user_input)
                nowClock matched_topic summaries⟩,
             QueryResult.success matched_topic summaries cached_articles summaries.length)

/-! ### Helper lemmas: `match_tz` and the per-day window -/

/-- `match_tz` never converts the clock value. -/
theorem match_tz_clock (dt ref : PyDateTime) : (match_tz dt ref).clock = dt.clock := by
  rcases dt with ⟨c, _ | t⟩ <;> rcases ref with ⟨c2, _ | t2⟩ <;> rfl

/-- After `match_tz`, both operands have like awareness, so the Python
comparison never raises. -/
theorem match_tz_tz_isSome (dt ref : PyDateTime) :
    (match_tz dt ref).tz.isSome = ref.tz.isSome := by
  rcases dt with ⟨c, _ | t⟩ <;> rcases ref with ⟨c2, _ | t2⟩ <;> rfl

/-- Against a naive window `[m, m + 1 day)`, an entry is kept exactly when
its clock value lies in the window, whatever its timezone. -/
theorem inWindowPerDay_naive_bounds (m : Int) (p : PyDateTime) :
    inWindowPerDay ⟨m, none⟩ ⟨m + 86400, none⟩ p = true ↔
      m ≤ p.clock ∧ p.clock < m + 86400 := by
  rcases p with ⟨c, _ | t⟩ <;>
    simp [inWindowPerDay, match_tz, dtLE, dtLT, pyCompVal]

/-! ### Helper lemmas: association lists -/

theorem alookup_aset_self {α β : Type} [DecidableEq α] (l : List (α × β)) (k : α) (v : β) :
    alookup (aset l k v) k = some v := by
  induction l with
  | nil => simp [aset, alookup]
  | cons kv t ih =>
    by_cases h : kv.1 = k <;> simp [aset, alookup, h, ih]

theorem alookup_aset_ne {α β : Type} [DecidableEq α] (l : List (α × β)) (k k1 : α) (v : β)
    (h : k ≠ k1) : alookup (aset l k v) k1 = alookup l k1 := by
  induction l with
  | nil => simp [aset, alookup, h]
  | cons kv t ih =>
    obtain ⟨k0, v0⟩ := kv
    simp only [aset]
    split_ifs with h0
    · subst h0
      simp [alookup, h]
    · simp [alookup, ih]

theorem alookup_mem {α β : Type} [DecidableEq α] (l : List (α × β)) (k : α) (v : β)
    (h : alookup l k = some v) : (k, v) ∈ l := by
  induction l with
  | nil => simp [alookup] at h
  | cons kv t ih =>
    obtain ⟨k0, v0⟩ := kv
    by_cases h0 : k0 = k
    · subst h0
      rw [alookup, if_pos rfl] at h
      injection h with hv
      subst hv
      exact List.mem_cons_self _ _
    · rw [alookup, if_neg h0] at h
      exact List.mem_cons_of_mem _ (ih h)

theorem alookup_filter_key {α β : Type} [DecidableEq α] (l : List (α × β))
    (p : α × β → Bool) (k : α) (hp : ∀ v, p (k, v) = true) :
    alookup (l.filter p) k = alookup l k := by
  induction l with
  | nil => rfl
  | cons kv t ih =>
    by_cases h0 : kv.1 = k
    · obtain ⟨k0, v0⟩ := kv
      cases h0
      rw [List.filter_cons, if_pos (hp v0), alookup, alookup, if_pos rfl, if_pos rfl]
    · rw [List.filter_cons]
      by_cases hq : p kv = true
      · rw [if_pos hq, alookup, if_neg h0, ih, alookup, if_neg h0]
      · rw [if_neg hq, ih, alookup, if_neg h0]

/-! ### Helper lemmas: `get_news_summaries` path reductions -/

theorem gns_unknown_topic (orc : Oracle) (nowClock : Int) (st : SysState) (input : String)
    (uid : Option String) (h1 : pyStrip input ≠ "") (h2 : sanitize_input input ≠ "")
    (h3 : resolveTopic (sanitize_input input) = none) :
    get_news_summaries orc nowClock st input uid = (st, QueryResult.failure unknownTopicMsg) := by
  simp [get_news_summaries, h1, h2, h3]

theorem gns_miss (orc : Oracle) (nowClock : Int) (st : SysState) (input : String)
    (uid : Option String) (t : String)
    (h1 : pyStrip input ≠ "") (h2 : sanitize_input input ≠ "")
    (h3 : resolveTopic (sanitize_input input) = some t)
    (h4 : alookup st.news_cache (t, midnightOf nowClock) = none)
    (h5 : orc.fetched ≠ []) (h6 : orc.promptOk = true) :
    get_news_summaries orc nowClock st input uid =
      (⟨sweepNews nowClock (aset st.news_cache (t, midnightOf nowClock) orc.fetched),
        (summarizeAll orc.classify orc.summarize t st.summary_cache orc.fetched).1,
        historyStep st.conversation_history uid (sanitize_input input) nowClock t
          (summarizeAll orc.classify orc.summarize t st.summary_cache orc.fetched).2⟩,
       QueryResult.success t
         (summarizeAll orc.classify orc.summarize t st.summary_cache orc.fetched).2
         false
         (summarizeAll orc.classify orc.summarize t st.summary_cache orc.fetched).2.length) := by
  simp [get_news_summaries, h1, h2, h3, newsCacheStep, h4, h5, h6]

theorem gns_hit (orc : Oracle) (nowClock : Int) (st : SysState) (input : String)
    (uid : Option String) (t : String) (arts : List Article)
    (h1 : pyStrip input ≠ "") (h2 : sanitize_input input ≠ "")
    (h3 : resolveTopic (sanitize_input input) = some t)
    (h4 : alookup st.news_cache (t, midnightOf nowClock) = some arts)
    (h5 : arts ≠ []) (h6 : orc.promptOk = true) :
    get_news_summaries orc nowClock st input uid =
      (⟨st.news_cache,
        (summarizeAll orc.classify orc.summarize t st.summary_cache arts).1,
        historyStep st.conversation_history uid (sanitize_input input) nowClock t
          (summarizeAll orc.classify orc.summarize t st.summary_cache arts).2⟩,
       QueryResult.success t
         (summarizeAll orc.classify orc.summarize t st.summary_cache arts).2
         true
         (summarizeAll orc.classify orc.summarize t st.summary_cache arts).2.length) := by
  simp [get_news_summaries, h1, h2, h3, newsCacheStep, h4, h5, h6]

theorem gns_miss_empty (orc : Oracle) (nowClock : Int) (st : SysState) (input : String)
    (uid : Option String) (t : String)
    (h1 : pyStrip input ≠ "") (h2 : sanitize_input input ≠ "")
    (h3 : resolveTopic (sanitize_input input) = some t)
    (h4 : alookup st.news_cache (t, midnightOf nowClock) = none)
    (h5 : orc.fetched = []) :
    get_news_summaries orc nowClock st input uid =
      (⟨sweepNews nowClock (aset st.news_cache (t, midnightOf nowClock) []),
        st.summary_cache, st.conversation_history⟩,
       QueryResult.failure (noArticlesMsg t)) := by
  simp [get_news_summaries, h1, h2, h3, newsCacheStep, h4, h5]

theorem gns_hit_empty (orc : Oracle) (nowClock : Int) (st : SysState) (input : String)
    (uid : Option String) (t : String)
    (h1 : pyStrip input ≠ "") (h2 : sanitize_input input ≠ "")
    (h3 : resolveTopic (sanitize_input input) = some t)
    (h4 : alookup st.news_cache (t, midnightOf nowClock) = some []) :
    get_news_summaries orc nowClock st input uid =
      (st, QueryResult.failure (noArticlesMsg t)) := by
  simp [get_news_summaries, h1, h2, h3, newsCacheStep, h4]

/-! ### Claim C1: per-day window correctness -/

/-- C1: in per-day mode with `targetDate = "2024-03-01"` (midnight epoch
second 1709251200), `fetch_news` filters by the half-open window
`[dayStart, dayStart + 1 day)` on clock values: (i) an entry is kept by the
date filter exactly when its clock value lies in `[m, m + 86400)`;
(ii) concretely, an entry published `2024-03-01T23:59:00Z` is included and
one published `2024-03-02T00:00:01Z` is excluded; (iii) when `targetDate`
is absent or its parse fails, `dayStart` is midnight of the current day. -/
theorem per_day_window_correct :
    (∀ (m : Int) (p : PyDateTime),
      inWindowPerDay ⟨m, none⟩ ⟨m + 86400, none⟩ p = true ↔
        m ≤ p.clock ∧ p.clock < m + 86400)
    ∧ fetch_news
        [⟨"Feed A", "urlA", some
           [⟨"Quarterly pay report", "l1", "s1", some (some ⟨1709251200 + 86340, some 0⟩)⟩,
            ⟨"Another story", "l2", "s2", some (some ⟨1709251200 + 86401, some 0⟩)⟩]⟩]
        (1709251200 + 3600) 15 30 true (some (some 1709251200))
        = [⟨"Quarterly pay report", "l1", "s1", "s1", "Feed A", "urlA",
            ⟨1709251200 + 86340, some 0⟩⟩]
    ∧ (∀ (feeds : List Feed) (nowClock : Int) (mr : Nat) (dl : Int),
        fetch_news feeds nowClock mr dl true none =
          fetch_news feeds nowClock mr dl true (some (some (midnightOf nowClock)))
        ∧ fetch_news feeds nowClock mr dl true (some none) =
          fetch_news feeds nowClock mr dl true (some (some (midnightOf nowClock)))) := by
  refine ⟨fun m p => inWindowPerDay_naive_bounds m p, by decide, fun feeds nowClock mr dl => ⟨rfl, rfl⟩⟩

/-- C1 witness: the window test evaluated at a concrete boundary instant. -/
theorem per_day_window_correct_witness :
    inWindowPerDay ⟨1709251200, none⟩ ⟨1709251200 + 86400, none⟩ ⟨1709251200, some 0⟩ = true :=
  (per_day_window_correct.1 1709251200 ⟨1709251200, some 0⟩).mpr (by decide)

/-! ### Claim C2: timezone reinterpretation tolerance -/

/-- C2: `match_tz` reinterprets clock values without conversion — the
result keeps the clock of its first argument and adopts the awareness of
the reference — and a naive article timestamp whose clock value equals a
timezone-aware lower window boundary is inside the window `[b, b + 1 day)`
(the lower boundary is inclusive), never excluded for lacking zone info. -/
theorem timezone_reinterpretation_tolerance :
    (∀ dt ref : PyDateTime,
      (match_tz dt ref).clock = dt.clock ∧ (match_tz dt ref).tz.isSome = ref.tz.isSome)
    ∧ (∀ (m off : Int) (p : PyDateTime), p.tz = none → p.clock = m →
        inWindowPerDay ⟨m, some off⟩ ⟨m + 86400, some off⟩ p = true) := by
  constructor
  · exact fun dt ref => ⟨match_tz_clock dt ref, match_tz_tz_isSome dt ref⟩
  · intro m off p htz hclk
    rcases p with ⟨c, tz⟩
    cases htz
    cases hclk
    simp [inWindowPerDay, match_tz, dtLE, dtLT, pyCompVal]

/-- C2 witness: a naive timestamp with the clock value of an aware boundary
(offset +1 h) is inside the window. -/
theorem timezone_reinterpretation_tolerance_witness :
    (match_tz ⟨100, some 3600⟩ ⟨100, none⟩).clock = 100
    ∧ inWindowPerDay ⟨100, some 3600⟩ ⟨100 + 86400, some 3600⟩ ⟨100, none⟩ = true :=
  ⟨(timezone_reinterpretation_tolerance.1 ⟨100, some 3600⟩ ⟨100, none⟩).1,
   timezone_reinterpretation_tolerance.2 100 3600 ⟨100, none⟩ rfl rfl⟩

/-! ### Claim C7: topic resolution -/

/-- C7: after sanitization the query resolves to the first topic in
registry order whose identifier is a case-insensitive substring of the
query (characterized via the split of the registry list); when none
matches, `get_news_summaries` returns the error listing all valid topics;
concretely, "Tell me about compensation, benefits and rewards please"
resolves to "compensation, benefits and rewards" and "what's new" resolves
to no topic. -/
theorem topic_resolution_first_match :
    (∀ (q t : String), resolveTopic q = some t ↔
      topicMatches q t = true ∧
        ∃ pre post, allowed_topics = pre ++ t :: post ∧
          ∀ t2 ∈ pre, topicMatches q t2 = false)
    ∧ (∀ (orc : Oracle) (nowClock : Int) (st : SysState) (input : String)
        (uid : Option String), pyStrip input ≠ "" → sanitize_input input ≠ "" →
        resolveTopic (sanitize_input input) = none →
        get_news_summaries orc nowClock st input uid =
          (st, QueryResult.failure unknownTopicMsg))
    ∧ unknownTopicMsg =
        "Please specify one of: hr strategy and leadership, workforce compliance and regulation, talent acquisition and labor trends, compensation, benefits and rewards, people development and culture"
    ∧ resolveTopic (sanitize_input "Tell me about compensation, benefits and rewards please")
        = some "compensation, benefits and rewards"
    ∧ resolveTopic (sanitize_input "what\x27s new") = none := by
  refine ⟨fun q t => ?_, gns_unknown_topic, by decide, by decide, by decide⟩
  rw [resolveTopic, List.find?_eq_some]
  simp only [Bool.not_eq_true']

/-- An all-stub oracle for concrete instantiations. -/
def testOracle : Oracle := ⟨[], true, fun _ => some "a summary", fun _ => some "Leadership"⟩

/-- The all-empty initial module state. -/
def emptySysState : SysState := ⟨[], [], []⟩

/-- C7 witness: the unknown-topic error on the concrete query "what's new". -/
theorem topic_resolution_first_match_witness :
    get_news_summaries testOracle 0 emptySysState "what\x27s new" none =
      (emptySysState, QueryResult.failure unknownTopicMsg) :=
  topic_resolution_first_match.2.1 testOracle 0 emptySysState "what\x27s new" none
    (by decide) (by decide) (by decide)

/-! ### Claim C3: dedup invariants of `fetch_news` -/

/-- Invariant of the entry loop: the accumulated articles have non-empty,
pairwise case-insensitively distinct titles, each recorded in `seen_titles`,
and `seen_titles` only grows. -/
theorem fetchEntries_inv (cfg : FetchCfg) (fname furl : String) :
    ∀ (es : List RawEntry) (seen : List String) (acc : List Article),
    (∀ a ∈ acc, a.title ≠ "" ∧ pyLower a.title ∈ seen) →
    acc.Pairwise (fun a b => pyLower a.title ≠ pyLower b.title) →
    (∀ s ∈ seen, s ∈ (fetchEntries cfg fname furl es seen acc).1)
    ∧ (∀ a ∈ (fetchEntries cfg fname furl es seen acc).2.1,
        a.title ≠ "" ∧ pyLower a.title ∈ (fetchEntries cfg fname furl es seen acc).1)
    ∧ (fetchEntries cfg fname furl es seen acc).2.1.Pairwise
        (fun a b => pyLower a.title ≠ pyLower b.title) := by
  intro es
  induction es with
  | nil =>
    intro seen acc hacc hpw
    exact ⟨fun s hs => hs, hacc, hpw⟩
  | cons e es ih =>
    intro seen acc hacc hpw
    rw [fetchEntries]
    by_cases hskip : pyStrip e.title = "" ∨ pyLower (pyStrip e.title) ∈ seen
    · rw [if_pos hskip]
      exact ih seen acc hacc hpw
    · rw [if_neg hskip]
      push_neg at hskip
      obtain ⟨hne, hnotseen⟩ := hskip
      by_cases hdate : entryKeep cfg (entryPublished cfg.now e) = false
      · rw [if_pos hdate]
        exact ih seen acc hacc hpw
      · rw [if_neg hdate]
        have hacc1 : ∀ a ∈ acc ++ [mkArticle fname furl (pyStrip e.title) e
            (entryPublished cfg.now e)],
            a.title ≠ "" ∧ pyLower a.title ∈ pyLower (pyStrip e.title) :: seen := by
          intro a ha
          rcases List.mem_append.mp ha with hin | hin
          · exact ⟨(hacc a hin).1, List.mem_cons_of_mem _ (hacc a hin).2⟩
          · rcases List.mem_singleton.mp hin with rfl
            exact ⟨hne, List.mem_cons_self _ _⟩
        have hpw1 : (acc ++ [mkArticle fname furl (pyStrip e.title) e
            (entryPublished cfg.now e)]).Pairwise
            (fun a b => pyLower a.title ≠ pyLower b.title) := by
          rw [List.pairwise_append]
          refine ⟨hpw, List.pairwise_singleton _ _, ?_⟩
          intro a hain b hbin
          rcases List.mem_singleton.mp hbin with rfl
          intro hcontra
          exact hnotseen (hcontra ▸ (hacc a hain).2)
        by_cases hbreak : cfg.per_day = false ∧ cfg.max_results ≤ acc.length + 1
        · rw [if_pos hbreak]
          exact ⟨fun s hs => List.mem_cons_of_mem _ hs, hacc1, hpw1⟩
        · rw [if_neg hbreak]
          have hrec := ih (pyLower (pyStrip e.title) :: seen) _ hacc1 hpw1
          exact ⟨fun s hs => hrec.1 s (List.mem_cons_of_mem _ hs), hrec.2.1, hrec.2.2⟩

/-- Invariant of the feed loop: the final article list has non-empty,
pairwise case-insensitively distinct titles. -/
theorem fetchFeeds_inv (cfg : FetchCfg) :
    ∀ (feeds : List Feed) (seen : List String) (acc : List Article),
    (∀ a ∈ acc, a.title ≠ "" ∧ pyLower a.title ∈ seen) →
    acc.Pairwise (fun a b => pyLower a.title ≠ pyLower b.title) →
    (∀ a ∈ fetchFeeds cfg feeds seen acc, a.title ≠ "")
    ∧ (fetchFeeds cfg feeds seen acc).Pairwise
        (fun a b => pyLower a.title ≠ pyLower b.title) := by
  intro feeds
  induction feeds with
  | nil =>
    intro seen acc hacc hpw
    exact ⟨fun a ha => (hacc a ha).1, hpw⟩
  | cons f fs ih =>
    intro seen acc hacc hpw
    rw [fetchFeeds]
    cases hp : f.parsed with
    | none => exact ih seen acc hacc hpw
    | some es =>
      dsimp only
      have hent := fetchEntries_inv cfg f.name f.url es seen acc hacc hpw
      rcases hr : fetchEntries cfg f.name f.url es seen acc with ⟨seen1, acc1, stop⟩
      rw [hr] at hent
      dsimp only at hent ⊢
      by_cases hb : cfg.per_day = false ∧ cfg.max_results ≤ acc1.length
      · simp only [if_pos hb]
        exact ⟨fun a ha => (hent.2.1 a ha).1, hent.2.2⟩
      · simp only [if_neg hb]
        exact ih seen1 acc1 hent.2.1 hent.2.2

/-- C3: within one `fetch_news` call, titles in the result are pairwise
distinct case-insensitively (so a title repeated across feeds yields at most
one article) and never empty; the fetch is deterministic in the feed
content; and on concrete content repeating one title across two feeds the
result is exactly one article, from the first feed in registry order. -/
theorem fetch_dedup_first_occurrence :
    (∀ (feeds : List Feed) (nowClock : Int) (mr : Nat) (dl : Int) (pd : Bool)
        (tgt : Option (Option Int)),
      (fetch_news feeds nowClock mr dl pd tgt).Pairwise
        (fun a b => pyLower a.title ≠ pyLower b.title)
      ∧ ∀ a ∈ fetch_news feeds nowClock mr dl pd tgt, a.title ≠ "")
    ∧ (∀ (feeds : List Feed) (nowClock : Int) (mr : Nat) (dl : Int) (pd : Bool)
        (tgt : Option (Option Int)),
        fetch_news feeds nowClock mr dl pd tgt = fetch_news feeds nowClock mr dl pd tgt)
    ∧ fetch_news
        [⟨"Feed One", "u1", some [⟨"Pay Rises", "l1", "s1", some (some ⟨10, none⟩)⟩]⟩,
         ⟨"Feed Two", "u2", some [⟨"PAY RISES", "l2", "s2", some (some ⟨20, none⟩)⟩]⟩]
        50 15 30 true (some (some 0))
        = [⟨"Pay Rises", "l1", "s1", "s1", "Feed One", "u1", ⟨10, none⟩⟩] := by
  refine ⟨fun feeds nowClock mr dl pd tgt => ?_, fun _ _ _ _ _ _ => rfl, by decide⟩
  have h := fetchFeeds_inv (mkFetchCfg nowClock mr dl pd tgt) feeds [] []
    (by intro a ha; cases ha) List.Pairwise.nil
  exact ⟨h.2, h.1⟩

/-- C3 witness: the deduplicated concrete result's single article has a
non-empty title. -/
theorem fetch_dedup_first_occurrence_witness :
    (⟨"Pay Rises", "l1", "s1", "s1", "Feed One", "u1", ⟨10, none⟩⟩ : Article).title ≠ "" :=
  (fetch_dedup_first_occurrence.1
      [⟨"Feed One", "u1", some [⟨"Pay Rises", "l1", "s1", some (some ⟨10, none⟩)⟩]⟩,
       ⟨"Feed Two", "u2", some [⟨"PAY RISES", "l2", "s2", some (some ⟨20, none⟩)⟩]⟩]
      50 15 30 true (some (some 0))).2 _
    (by rw [fetch_dedup_first_occurrence.2.2]; exact List.mem_singleton.mpr rfl)

/-! ### Claim C6: conversation history cap -/

/-- The truncated history has at most 10 entries. -/
theorem takeLast10_le_ten (l : List ConvEntry) : (takeLast10 l).length ≤ 10 := by
  simp only [takeLast10, List.length_drop]
  omega

/-- The conversation history after any call is either untouched or the
result of one `historyStep`. -/
theorem gns_history_shape (orc : Oracle) (nowClock : Int) (st : SysState)
    (input : String) (uid : Option String) :
    (get_news_summaries orc nowClock st input uid).1.conversation_history =
      st.conversation_history
    ∨ ∃ t sums,
        (get_news_summaries orc nowClock st input uid).1.conversation_history =
          historyStep st.conversation_history uid (sanitize_input input) nowClock t sums := by
  by_cases h1 : pyStrip input = ""
  · left
    simp [get_news_summaries, h1]
  · by_cases h2 : sanitize_input input = ""
    · left
      simp [get_news_summaries, h1, h2]
    · cases h3 : resolveTopic (sanitize_input input) with
      | none =>
        left
        simp [get_news_summaries, h1, h2, h3]
      | some t =>
        rcases hnc : newsCacheStep orc.fetched nowClock st.news_cache t with ⟨arts, ca, nc1⟩
        rcases hs : summarizeAll orc.classify orc.summarize t st.summary_cache arts
          with ⟨sc1, sums⟩
        by_cases ha : arts = []
        · left
          simp [get_news_summaries, h1, h2, h3, hnc, ha]
        · by_cases hpOk : orc.promptOk = false
          · left
            simp [get_news_summaries, h1, h2, h3, hnc, ha, hpOk]
          · right
            refine ⟨t, sums, ?_⟩
            simp [get_news_summaries, h1, h2, h3, hnc, ha, hpOk, hs]

/-- `historyStep` preserves the 10-entry bound on every user's history. -/
theorem historyStep_bound (ch : List (String × List ConvEntry)) (uid : Option String)
    (q : String) (nowClock : Int) (t : String) (s : List SummaryRecord)
    (hinv : ∀ u l, alookup ch u = some l → l.length ≤ 10) :
    ∀ u l, alookup (historyStep ch uid q nowClock t s) u = some l → l.length ≤ 10 := by
  cases uid with
  | none => exact hinv
  | some u0 =>
    by_cases h0 : u0 = ""
    · simpa [historyStep, h0] using hinv
    · intro u l hl
      rw [historyStep, if_neg h0] at hl
      by_cases hu : u0 = u
      · cases hu
        rw [alookup_aset_self] at hl
        cases hl
        exact takeLast10_le_ten _
      · rw [alookup_aset_ne _ _ _ _ hu] at hl
        exact hinv u l hl

/-- C6: (a) with no user id, no call changes any conversation history;
(b) every call preserves the invariant that each user's history has at most
10 entries; (c) with a (non-empty) user id the stored history is the prior
one with the new entry appended, truncated to the last 10; (d) that
truncation has length `min (n+1) 10` and is a suffix of the appended list
(insertion order preserved, most recent kept); (e) appending to a full
history of 10 drops exactly the oldest entry (FIFO); (f) folding 11 appends
from empty leaves exactly entries 2..11, in order. -/
theorem conversation_history_cap :
    (∀ (orc : Oracle) (nowClock : Int) (st : SysState) (input : String),
      (get_news_summaries orc nowClock st input none).1.conversation_history =
        st.conversation_history)
    ∧ (∀ (orc : Oracle) (nowClock : Int) (st : SysState) (input : String)
        (uid : Option String),
        (∀ u l, alookup st.conversation_history u = some l → l.length ≤ 10) →
        ∀ u l, alookup (get_news_summaries orc nowClock st input uid).1.conversation_history u
          = some l → l.length ≤ 10)
    ∧ (∀ (ch : List (String × List ConvEntry)) (uid q : String) (nowClock : Int)
        (t : String) (s : List SummaryRecord), uid ≠ "" →
        alookup (historyStep ch (some uid) q nowClock t s) uid =
          some (takeLast10 ((alookup ch uid).getD [] ++ [⟨"user", q, nowClock, t, s⟩])))
    ∧ (∀ (l : List ConvEntry) (e : ConvEntry),
        (takeLast10 (l ++ [e])).length = min (l.length + 1) 10
        ∧ takeLast10 (l ++ [e]) <:+ (l ++ [e]))
    ∧ (∀ (l : List ConvEntry) (e : ConvEntry), l.length = 10 →
        takeLast10 (l ++ [e]) = l.drop 1 ++ [e])
    ∧ (∀ e1 e2 e3 e4 e5 e6 e7 e8 e9 e10 e11 : ConvEntry,
        List.foldl (fun l e => takeLast10 (l ++ [e])) []
          [e1, e2, e3, e4, e5, e6, e7, e8, e9, e10, e11] =
          [e2, e3, e4, e5, e6, e7, e8, e9, e10, e11]) := by
  refine ⟨?_, ?_, ?_, ?_, ?_, ?_⟩
  · intro orc nowClock st input
    rcases gns_history_shape orc nowClock st input none with h | ⟨t, sums, h⟩
    · exact h
    · exact h
  · intro orc nowClock st input uid hinv u l hl
    rcases gns_history_shape orc nowClock st input uid with h | ⟨t, sums, h⟩
    · rw [h] at hl
      exact hinv u l hl
    · rw [h] at hl
      exact historyStep_bound _ _ _ _ _ _ hinv u l hl
  · intro ch uid q nowClock t s h0
    rw [historyStep, if_neg h0, alookup_aset_self]
  · intro l e
    constructor
    · simp only [takeLast10, List.length_drop, List.length_append, List.length_cons,
        List.length_nil]
      omega
    · exact List.drop_suffix _ _
  · intro l e h
    rw [takeLast10, List.length_append]
    simp only [h, List.length_cons, List.length_nil]
    exact List.drop_append_of_le_length (by omega)
  · intro e1 e2 e3 e4 e5 e6 e7 e8 e9 e10 e11
    simp [takeLast10, List.foldl]

/-- C6 witness: concrete instantiations of the hypothesized conjuncts. -/
theorem conversation_history_cap_witness :
    (∀ u l,
      alookup (get_news_summaries testOracle 0 emptySysState "hello" (some "u1")).1.conversation_history u = some l →
      l.length ≤ 10)
    ∧ alookup (historyStep [] (some "u1") "q" 0 "t" []) "u1" =
        some (takeLast10 ([] ++ [⟨"user", "q", 0, "t", []⟩]))
    ∧ takeLast10 (List.replicate 10 (⟨"user", "q", 0, "t", []⟩ : ConvEntry) ++ [⟨"user", "r", 1, "t", []⟩]) =
        (List.replicate 10 (⟨"user", "q", 0, "t", []⟩ : ConvEntry)).drop 1 ++ [⟨"user", "r", 1, "t", []⟩] := by
  refine ⟨?_, ?_, ?_⟩
  · exact conversation_history_cap.2.1 testOracle 0 emptySysState "hello" (some "u1")
      (by intro u l hl; cases hl)
  · have h := conversation_history_cap.2.2.1 [] "u1" "q" 0 "t" [] (by decide)
    simpa using h
  · exact conversation_history_cap.2.2.2.2.1
      (List.replicate 10 ⟨"user", "q", 0, "t", []⟩) ⟨"user", "r", 1, "t", []⟩ (by simp)

/-! ### Claim C4: article cache retention and lazy sweep -/

/-- An insertion more than a day old has a key day distinct from (and more
than a day before) the current lookup day. -/
theorem midnight_stale (ins nowClock : Int) (h : nowClock - ins > 86400) :
    midnightOf ins ≠ midnightOf nowClock ∧ nowClock - midnightOf ins > 86400 := by
  simp only [midnightOf]
  omega

/-- Everything surviving the sweep has a key day at most one day old. -/
theorem sweepNews_bound (nowClock : Int) (nc : List ((String × Int) × List Article)) :
    ∀ kv ∈ sweepNews nowClock nc, nowClock - kv.1.2 ≤ 86400 := by
  intro kv hkv
  exact of_decide_eq_true (List.mem_filter.mp hkv).2

/-- After any call that resolves a topic, the article cache is exactly what
the cache block produced. -/
theorem gns_news_cache_after (orc : Oracle) (nowClock : Int) (st : SysState)
    (input : String) (uid : Option String) (t : String)
    (h1 : pyStrip input ≠ "") (h2 : sanitize_input input ≠ "")
    (h3 : resolveTopic (sanitize_input input) = some t) :
    (get_news_summaries orc nowClock st input uid).1.news_cache =
      (newsCacheStep orc.fetched nowClock st.news_cache t).2.2 := by
  rcases hnc : newsCacheStep orc.fetched nowClock st.news_cache t with ⟨arts, ca, nc1⟩
  rcases hs : summarizeAll orc.classify orc.summarize t st.summary_cache arts with ⟨sc1, sums⟩
  by_cases ha : arts = []
  · simp [get_news_summaries, h1, h2, h3, hnc, ha]
  · by_cases hpOk : orc.promptOk = false
    · simp [get_news_summaries, h1, h2, h3, hnc, ha, hpOk]
    · simp [get_news_summaries, h1, h2, h3, hnc, ha, hpOk, hs]

/-- C4: (a) an entry whose insertion is more than one day (wall clock) old
is keyed under a day other than the current one, so today's lookup never
sees it — it is treated as absent (concretely, a cache holding only such an
entry answers `none`, and any value a lookup does return comes from an
entry keyed under today); (b) every insertion (cache-miss path) sweeps all
keys: everything left in the article cache afterwards is at most one day
old, so every entry older than that is deleted; (c) a cache hit (and the
rest of a hit call) performs no eviction: the article cache is unchanged. -/
theorem article_cache_retention_sweep :
    (∀ ins nowClock : Int, nowClock - ins > 86400 →
      midnightOf ins ≠ midnightOf nowClock ∧ nowClock - midnightOf ins > 86400)
    ∧ (∀ (t : String) (ins nowClock : Int) (v : List Article), nowClock - ins > 86400 →
        alookup [((t, midnightOf ins), v)] (t, midnightOf nowClock) = none)
    ∧ (∀ (nc : List ((String × Int) × List Article)) (t : String) (nowClock : Int)
        (arts : List Article),
        alookup nc (t, midnightOf nowClock) = some arts → ((t, midnightOf nowClock), arts) ∈ nc)
    ∧ (∀ (orc : Oracle) (nowClock : Int) (st : SysState) (input : String)
        (uid : Option String) (t : String),
        pyStrip input ≠ "" → sanitize_input input ≠ "" →
        resolveTopic (sanitize_input input) = some t →
        alookup st.news_cache (t, midnightOf nowClock) = none →
        ∀ kv ∈ (get_news_summaries orc nowClock st input uid).1.news_cache,
          nowClock - kv.1.2 ≤ 86400)
    ∧ (∀ (orc : Oracle) (nowClock : Int) (st : SysState) (input : String)
        (uid : Option String) (t : String) (arts : List Article),
        pyStrip input ≠ "" → sanitize_input input ≠ "" →
        resolveTopic (sanitize_input input) = some t →
        alookup st.news_cache (t, midnightOf nowClock) = some arts →
        (get_news_summaries orc nowClock st input uid).1.news_cache = st.news_cache) := by
  refine ⟨midnight_stale, ?_, fun nc t nowClock arts h => alookup_mem _ _ _ h, ?_, ?_⟩
  · intro t ins nowClock v h
    have hne := (midnight_stale ins nowClock h).1
    simp [alookup, hne]
  · intro orc nowClock st input uid t h1 h2 h3 h4 kv hkv
    rw [gns_news_cache_after orc nowClock st input uid t h1 h2 h3] at hkv
    rw [newsCacheStep, h4] at hkv
    exact sweepNews_bound nowClock _ kv hkv
  · intro orc nowClock st input uid t arts h1 h2 h3 h4
    rw [gns_news_cache_after orc nowClock st input uid t h1 h2 h3, newsCacheStep, h4]

/-- C4 witness: the retention facts at concrete instants, a concrete stale
lookup, a concrete sweeping insertion, and a concrete eviction-free hit. -/
theorem article_cache_retention_sweep_witness :
    (midnightOf 0 ≠ midnightOf 100000 ∧ 100000 - midnightOf 0 > 86400)
    ∧ alookup [((("people development and culture", midnightOf 0) : String × Int),
        ([] : List Article))] ("people development and culture", midnightOf 100000) = none
    ∧ (0 : Int) - ((("people development and culture", midnightOf 0) : String × Int),
        ([] : List Article)).1.2 ≤ 86400
    ∧ (get_news_summaries testOracle 0
        ⟨[(("people development and culture", 0), [⟨"T", "u", "d", "c", "S", "su", ⟨0, none⟩⟩])],
          [], []⟩
        "people development and culture" none).1.news_cache =
        [(("people development and culture", 0), [⟨"T", "u", "d", "c", "S", "su", ⟨0, none⟩⟩])] := by
  refine ⟨article_cache_retention_sweep.1 0 100000 (by decide), ?_, ?_, ?_⟩
  · exact article_cache_retention_sweep.2.1 "people development and culture" 0 100000 []
      (by decide)
  · exact article_cache_retention_sweep.2.2.2.1 testOracle 0 emptySysState
      "people development and culture" none "people development and culture"
      (by decide) (by decide) (by decide) (by decide) _ (by decide)
  · exact article_cache_retention_sweep.2.2.2.2 testOracle 0
      ⟨[(("people development and culture", 0), [⟨"T", "u", "d", "c", "S", "su", ⟨0, none⟩⟩])],
        [], []⟩
      "people development and culture" none "people development and culture"
      [⟨"T", "u", "d", "c", "S", "su", ⟨0, none⟩⟩]
      (by decide) (by decide) (by decide) (by decide)

/-! ### Claim C5: same-day cache hit avoids refetch -/

/-- The sweep never removes a key whose day is at most one day old. -/
theorem alookup_sweep_fresh (nowClock : Int) (nc : List ((String × Int) × List Article))
    (t : String) (d : Int) (h : nowClock - d ≤ 86400) :
    alookup (sweepNews nowClock nc) (t, d) = alookup nc (t, d) := by
  apply alookup_filter_key
  intro v
  exact decide_eq_true h

/-- Now is at most one day past its own midnight. -/
theorem sub_midnightOf_self_le (nowClock : Int) : nowClock - midnightOf nowClock ≤ 86400 := by
  simp only [midnightOf]
  omega

/-- C5: a first (cache-miss) call stores the fetched article list under
`(topic, today)`; every same-day call resolving to the same topic then hits:
it answers `cached_articles = true` with records built from the stored list
— its result does not mention the second oracle's fetched list at all, i.e.
the Fetcher is not re-invoked.  Queries for a different topic never read the
entry (inserting under another topic leaves its lookups unchanged) and never
overwrite it (the entry still holds the stored list after such a call). -/
theorem cache_hit_avoids_refetch (orc : Oracle) (nowClock : Int) (st : SysState)
    (input : String) (uid : Option String) (t : String)
    (h1 : pyStrip input ≠ "") (h2 : sanitize_input input ≠ "")
    (h3 : resolveTopic (sanitize_input input) = some t)
    (h4 : alookup st.news_cache (t, midnightOf nowClock) = none)
    (h5 : orc.fetched ≠ []) (_h6 : orc.promptOk = true) :
    alookup (get_news_summaries orc nowClock st input uid).1.news_cache
      (t, midnightOf nowClock) = some orc.fetched
    ∧ (∀ (orc2 : Oracle) (now2 : Int) (input2 : String) (uid2 : Option String),
        pyStrip input2 ≠ "" → sanitize_input input2 ≠ "" →
        resolveTopic (sanitize_input input2) = some t →
        midnightOf now2 = midnightOf nowClock →
        orc2.promptOk = true →
        (get_news_summaries orc2 now2 (get_news_summaries orc nowClock st input uid).1
            input2 uid2).2 =
          QueryResult.success t
            (summarizeAll orc2.classify orc2.summarize t
              (get_news_summaries orc nowClock st input uid).1.summary_cache orc.fetched).2
            true
            (summarizeAll orc2.classify orc2.summarize t
              (get_news_summaries orc nowClock st input uid).1.summary_cache orc.fetched).2.length)
    ∧ (∀ (t2 : String) (d2 : Int) (nc : List ((String × Int) × List Article))
        (v : List Article), t2 ≠ t →
        alookup (aset nc (t, midnightOf nowClock) v) (t2, d2) = alookup nc (t2, d2))
    ∧ (∀ (orc3 : Oracle) (now3 : Int) (input3 : String) (uid3 : Option String) (t3 : String),
        t3 ≠ t →
        pyStrip input3 ≠ "" → sanitize_input input3 ≠ "" →
        resolveTopic (sanitize_input input3) = some t3 →
        midnightOf now3 = midnightOf nowClock →
        alookup (get_news_summaries orc3 now3 (get_news_summaries orc nowClock st input uid).1
            input3 uid3).1.news_cache (t, midnightOf nowClock) = some orc.fetched) := by
  have hnc1 : (get_news_summaries orc nowClock st input uid).1.news_cache =
      sweepNews nowClock (aset st.news_cache (t, midnightOf nowClock) orc.fetched) := by
    rw [gns_news_cache_after orc nowClock st input uid t h1 h2 h3, newsCacheStep, h4]
  have hstored : alookup (get_news_summaries orc nowClock st input uid).1.news_cache
      (t, midnightOf nowClock) = some orc.fetched := by
    rw [hnc1, alookup_sweep_fresh _ _ _ _ (sub_midnightOf_self_le nowClock),
      alookup_aset_self]
  refine ⟨hstored, ?_, ?_, ?_⟩
  · intro orc2 now2 input2 uid2 g1 g2 g3 gday g6
    have hhit : alookup (get_news_summaries orc nowClock st input uid).1.news_cache
        (t, midnightOf now2) = some orc.fetched := by
      rw [gday]
      exact hstored
    rw [gns_hit orc2 now2 _ input2 uid2 t orc.fetched g1 g2 g3 hhit h5 g6]
  · intro t2 d2 nc v hne
    refine alookup_aset_ne _ _ _ _ ?_
    intro heq
    exact hne (congrArg Prod.fst heq).symm
  · intro orc3 now3 input3 uid3 t3 hne g1 g2 g3 gday
    rw [gns_news_cache_after orc3 now3 _ input3 uid3 t3 g1 g2 g3]
    cases hl : alookup (get_news_summaries orc nowClock st input uid).1.news_cache
        (t3, midnightOf now3) with
    | some arts3 =>
      rw [newsCacheStep, hl]
      exact hstored
    | none =>
      rw [newsCacheStep, hl]
      have hfresh : now3 - midnightOf nowClock ≤ 86400 := by
        rw [← gday]
        exact sub_midnightOf_self_le now3
      rw [alookup_sweep_fresh _ _ _ _ hfresh]
      rw [alookup_aset_ne]
      · exact hstored
      · intro heq
        exact hne (congrArg Prod.fst heq)

/-- A concrete fetched article for instantiations. -/
def testArticle : Article := ⟨"T1", "u1", "d1", "c1", "S1", "su1", ⟨0, none⟩⟩

/-- An oracle whose fetch returns one article. -/
def testOracleFetch : Oracle :=
  ⟨[testArticle], true, fun _ => some "a summary", fun _ => some "Culture"⟩

/-- C5 witness: after a concrete miss call for "people development and
culture", the entry is stored; a same-day call with a *different* oracle
(whose own fetch is empty) still succeeds from the cache; inserts under a
different topic do not touch the entry's lookups; and a same-day call for a
different topic leaves the entry intact. -/
theorem cache_hit_avoids_refetch_witness :
    alookup (get_news_summaries testOracleFetch 0 emptySysState
        "people development and culture" none).1.news_cache
      ("people development and culture", midnightOf 0) = some testOracleFetch.fetched
    ∧ (get_news_summaries testOracle 50 (get_news_summaries testOracleFetch 0 emptySysState
          "people development and culture" none).1
        "people development and culture" none).2 =
      QueryResult.success "people development and culture"
        (summarizeAll testOracle.classify testOracle.summarize "people development and culture"
          (get_news_summaries testOracleFetch 0 emptySysState
            "people development and culture" none).1.summary_cache testOracleFetch.fetched).2
        true
        (summarizeAll testOracle.classify testOracle.summarize "people development and culture"
          (get_news_summaries testOracleFetch 0 emptySysState
            "people development and culture" none).1.summary_cache testOracleFetch.fetched).2.length
    ∧ alookup (aset [] ("people development and culture", midnightOf 0) [testArticle])
        ("hr strategy and leadership", 0) =
      alookup ([] : List ((String × Int) × List Article)) ("hr strategy and leadership", 0)
    ∧ alookup (get_news_summaries testOracle 50 (get_news_summaries testOracleFetch 0 emptySysState
          "people development and culture" none).1
        "hr strategy and leadership" none).1.news_cache
      ("people development and culture", midnightOf 0) = some testOracleFetch.fetched := by
  have h := cache_hit_avoids_refetch testOracleFetch 0 emptySysState
    "people development and culture" none "people development and culture"
    (by decide) (by decide) (by decide) (by decide) (by decide) (by decide)
  refine ⟨h.1, ?_, ?_, ?_⟩
  · exact h.2.1 testOracle 50 "people development and culture" none
      (by decide) (by decide) (by decide) (by decide) (by decide)
  · exact h.2.2.1 "hr strategy and leadership" 0 [] [testArticle] (by decide)
  · exact h.2.2.2 testOracle 50 "hr strategy and leadership" none "hr strategy and leadership"
      (by decide) (by decide) (by decide) (by decide) (by decide)

/-! ### Claim C10: an empty fetch is cached and replayed as NoArticles -/

/-- C10: when the fetch returns no articles, the miss path still stores the
empty list under `(topic, today)` before returning the NoArticles error
(leaving the summary cache and history untouched), and every subsequent
same-day call resolving to the same topic reads the cached empty list and
returns the same NoArticles error with the state unchanged — its outcome
does not mention the second oracle's fetched list, i.e. the Fetcher is not
re-invoked. -/
theorem empty_fetch_cached_no_articles (orc : Oracle) (nowClock : Int) (st : SysState)
    (input : String) (uid : Option String) (t : String)
    (h1 : pyStrip input ≠ "") (h2 : sanitize_input input ≠ "")
    (h3 : resolveTopic (sanitize_input input) = some t)
    (h4 : alookup st.news_cache (t, midnightOf nowClock) = none)
    (h5 : orc.fetched = []) :
    (get_news_summaries orc nowClock st input uid).2 = QueryResult.failure (noArticlesMsg t)
    ∧ alookup (get_news_summaries orc nowClock st input uid).1.news_cache
        (t, midnightOf nowClock) = some []
    ∧ (get_news_summaries orc nowClock st input uid).1.summary_cache = st.summary_cache
    ∧ (get_news_summaries orc nowClock st input uid).1.conversation_history =
        st.conversation_history
    ∧ (∀ (orc2 : Oracle) (now2 : Int) (input2 : String) (uid2 : Option String),
        pyStrip input2 ≠ "" → sanitize_input input2 ≠ "" →
        resolveTopic (sanitize_input input2) = some t →
        midnightOf now2 = midnightOf nowClock →
        get_news_summaries orc2 now2 (get_news_summaries orc nowClock st input uid).1
            input2 uid2 =
          ((get_news_summaries orc nowClock st input uid).1,
           QueryResult.failure (noArticlesMsg t))) := by
  have heq := gns_miss_empty orc nowClock st input uid t h1 h2 h3 h4 h5
  have hstored : alookup (get_news_summaries orc nowClock st input uid).1.news_cache
      (t, midnightOf nowClock) = some [] := by
    rw [heq]
    exact (alookup_sweep_fresh _ _ _ _ (sub_midnightOf_self_le nowClock)).trans
      (alookup_aset_self _ _ _)
  refine ⟨by rw [heq], hstored, by rw [heq], by rw [heq], ?_⟩
  intro orc2 now2 input2 uid2 g1 g2 g3 gday
  have hhit : alookup (get_news_summaries orc nowClock st input uid).1.news_cache
      (t, midnightOf now2) = some [] := by
    rw [gday]
    exact hstored
  exact gns_hit_empty orc2 now2 _ input2 uid2 t g1 g2 g3 hhit

/-- C10 witness: a concrete empty fetch for "people development and
culture" yields the NoArticles error, caches `[]`, and a same-day second
call with an oracle that *would* fetch an article still replays the
NoArticles error from the cache. -/
theorem empty_fetch_cached_no_articles_witness :
    (get_news_summaries testOracle 0 emptySysState
        "people development and culture" none).2 =
      QueryResult.failure (noArticlesMsg "people development and culture")
    ∧ alookup (get_news_summaries testOracle 0 emptySysState
          "people development and culture" none).1.news_cache
        ("people development and culture", midnightOf 0) = some []
    ∧ get_news_summaries testOracleFetch 50 (get_news_summaries testOracle 0 emptySysState
          "people development and culture" none).1
        "people development and culture" none =
      ((get_news_summaries testOracle 0 emptySysState
          "people development and culture" none).1,
       QueryResult.failure (noArticlesMsg "people development and culture")) := by
  have h := empty_fetch_cached_no_articles testOracle 0 emptySysState
    "people development and culture" none "people development and culture"
    (by decide) (by decide) (by decide) (by decide) (by decide)
  exact ⟨h.1, h.2.1, h.2.2.2.2 testOracleFetch 50 "people development and culture" none
    (by decide) (by decide) (by decide) (by decide)⟩

/-! ### Claim C9: `cached` flag and tag discipline of summary records -/

/-- C9: for every record a `processArticle` step emits, `cached = true`
holds iff the summary text was read from the summary cache under key
`(title, topic)` (in which case the record carries no tag field, its text is
the cached one, and the cache is unchanged), while a fresh record always
carries a tag — the classifier's answer if it lies in the closed tag set,
otherwise the topic's static default — and stores its new summary; every
record of a batch arises from such a step on one of the input articles. -/
theorem summary_cache_flag_and_tag :
    (∀ (cl : String → Option String) (su : Article → Option String) (t : String)
        (sc sc1 : List ((String × String) × String)) (a : Article) (r : SummaryRecord),
      processArticle cl su t sc a = (sc1, some r) →
        (r.cached = true ↔ (alookup sc (a.title, t)).isSome)
        ∧ (r.cached = true → r.tag = none ∧ alookup sc (a.title, t) = some r.summary
            ∧ sc1 = sc)
        ∧ (r.cached = false → r.tag = some (get_topic_tag cl t (articleContent a))
            ∧ su a = some r.summary
            ∧ sc1 = aset sc (a.title, t) r.summary))
    ∧ (∀ (cl : String → Option String) (su : Article → Option String) (t : String)
        (sc : List ((String × String) × String)) (articles : List Article)
        (r : SummaryRecord),
        r ∈ (summarizeAll cl su t sc articles).2 →
        ∃ a ∈ articles, ∃ sc0 sc1, processArticle cl su t sc0 a = (sc1, some r))
    ∧ (∀ (cl : String → Option String) (t content ans : String),
        cl (content.take 500) = some ans →
        get_topic_tag cl t content =
          if ans ∈ tagValues then ans else (alookup topic_map t).getD "General") := by
  refine ⟨?_, ?_, ?_⟩
  · intro cl su t sc sc1 a r h
    cases hl : alookup sc (a.title, t) with
    | some s =>
      rw [processArticle, hl] at h
      injection h with hsc hr
      injection hr with hr
      subst hsc
      subst hr
      simp [hl]
    | none =>
      rw [processArticle, hl] at h
      cases hsu : su a with
      | none =>
        rw [hsu] at h
        injection h with hsc hr
        cases hr
      | some s =>
        rw [hsu] at h
        injection h with hsc hr
        injection hr with hr
        subst hsc
        subst hr
        simp [hl, hsu]
  · intro cl su t sc articles
    induction articles generalizing sc with
    | nil =>
      intro r hr
      simp [summarizeAll] at hr
    | cons a rest ih =>
      intro r hr
      rw [summarizeAll] at hr
      rcases hp : processArticle cl su t sc a with ⟨sca, orec⟩
      rw [hp] at hr
      dsimp only at hr
      rcases hs : summarizeAll cl su t sca rest with ⟨scb, recs⟩
      rw [hs] at hr
      cases orec with
      | some r0 =>
        rcases List.mem_cons.mp hr with rfl | hmem
        · exact ⟨a, List.mem_cons_self _ _, sc, sca, hp⟩
        · have hrec := ih sca r (by rw [hs]; exact hmem)
          rcases hrec with ⟨a1, ha1, sc0, sc1, hp1⟩
          exact ⟨a1, List.mem_cons_of_mem _ ha1, sc0, sc1, hp1⟩
      | none =>
        have hrec := ih sca r (by rw [hs]; exact hr)
        rcases hrec with ⟨a1, ha1, sc0, sc1, hp1⟩
        exact ⟨a1, List.mem_cons_of_mem _ ha1, sc0, sc1, hp1⟩
  · intro cl t content ans h
    rw [get_topic_tag, h]

/-- C9 witness: the flag/tag facts at a concrete fresh record and a
concrete cache-hit record. -/
theorem summary_cache_flag_and_tag_witness :
    ((⟨"T1", "u1", "a summary", "S1", ⟨0, none⟩, some "Culture", false⟩ :
        SummaryRecord).tag =
      some (get_topic_tag testOracleFetch.classify "people development and culture"
        (articleContent testArticle)))
    ∧ ((⟨"T1", "u1", "old summary", "S1", ⟨0, none⟩, none, true⟩ : SummaryRecord).tag = none)
    ∧ get_topic_tag testOracleFetch.classify "people development and culture" "anything" =
        (if "Culture" ∈ tagValues then "Culture"
         else (alookup topic_map "people development and culture").getD "General") := by
  have h1 := (summary_cache_flag_and_tag.1 testOracleFetch.classify testOracleFetch.summarize
    "people development and culture" []
    (aset [] ("T1", "people development and culture") "a summary") testArticle
    ⟨"T1", "u1", "a summary", "S1", ⟨0, none⟩, some "Culture", false⟩ (by decide)).2.2 rfl
  have h2 := (summary_cache_flag_and_tag.1 testOracleFetch.classify testOracleFetch.summarize
    "people development and culture"
    [(("T1", "people development and culture"), "old summary")]
    [(("T1", "people development and culture"), "old summary")] testArticle
    ⟨"T1", "u1", "old summary", "S1", ⟨0, none⟩, none, true⟩ (by decide)).2.1 rfl
  have h3 := summary_cache_flag_and_tag.2.2 testOracleFetch.classify
    "people development and culture" "anything" "Culture" (by decide)
  exact ⟨h1.1, h2.1, h3⟩

/-! ### Claim C8: partial failure containment -/

/-- The record built for a freshly summarized article. -/
def freshRec (cl : String → Option String) (t : String) (a : Article)
    (s : String) : SummaryRecord :=
  ⟨a.title, a.url, s, a.sourceName, a.publishedAt,
   some (get_topic_tag cl t (articleContent a)), false⟩

/-- In every success result, `total_articles` is the number of records
actually produced. -/
theorem gns_total_eq_length (orc : Oracle) (nowClock : Int) (st : SysState)
    (input : String) (uid : Option String) :
    ∀ t recs ca n, (get_news_summaries orc nowClock st input uid).2 =
      QueryResult.success t recs ca n → n = recs.length := by
  intro t recs ca n h
  by_cases h1 : pyStrip input = ""
  · simp [get_news_summaries, h1] at h
  · by_cases h2 : sanitize_input input = ""
    · simp [get_news_summaries, h1, h2] at h
    · cases h3 : resolveTopic (sanitize_input input) with
      | none => simp [get_news_summaries, h1, h2, h3] at h
      | some t0 =>
        rcases hnc : newsCacheStep orc.fetched nowClock st.news_cache t0 with ⟨arts, ca0, nc1⟩
        rcases hs : summarizeAll orc.classify orc.summarize t0 st.summary_cache arts
          with ⟨sc1, sums⟩
        by_cases ha : arts = []
        · simp [get_news_summaries, h1, h2, h3, hnc, ha] at h
        · by_cases hpOk : orc.promptOk = false
          · simp [get_news_summaries, h1, h2, h3, hnc, ha, hpOk] at h
          · simp [get_news_summaries, h1, h2, h3, hnc, ha, hpOk, hs,
              QueryResult.success.injEq] at h
            rw [← h.2.2.2, h.2.1]

/-- An article of the concrete five-article batch. -/
def batchArticle (ti : String) : Article := ⟨ti, "u", "d", "c", "S", "su", ⟨0, none⟩⟩

/-- A summarizer whose call fails (raises after retries) exactly on the
article titled "t2". -/
def batchSummarize : Article → Option String :=
  fun a => if a.title = "t2" then none else some ("sum " ++ a.title)

/-- An oracle fetching five articles, the second of which fails to
summarize. -/
def batchOracle : Oracle :=
  ⟨[batchArticle "t1", batchArticle "t2", batchArticle "t3", batchArticle "t4",
    batchArticle "t5"], true, batchSummarize, fun _ => some "Culture"⟩

/-- C8: a hard summarizer failure on one article removes only that article:
(a) in every success result `total_articles` equals the number of records
produced; (b) a `processArticle` step yields no record exactly when the
article misses the cache and its summarizer call fails, and such a step
leaves the summary cache unchanged; (c) when all articles miss the cache
and have pairwise distinct titles, the batch output is, in input order,
exactly one fresh record per article whose summarizer call succeeds —
failing articles are simply skipped; (d) concretely, a five-article batch
whose second article fails yields the other four records in order and
`total_articles = 4`. -/
theorem partial_failure_containment :
    (∀ (orc : Oracle) (nowClock : Int) (st : SysState) (input : String)
        (uid : Option String) (t : String) (recs : List SummaryRecord)
        (ca : Bool) (n : Nat),
      (get_news_summaries orc nowClock st input uid).2 =
        QueryResult.success t recs ca n → n = recs.length)
    ∧ (∀ (cl : String → Option String) (su : Article → Option String) (t : String)
        (sc : List ((String × String) × String)) (a : Article),
        ((processArticle cl su t sc a).2 = none ↔
          alookup sc (a.title, t) = none ∧ su a = none)
        ∧ ((processArticle cl su t sc a).2 = none → (processArticle cl su t sc a).1 = sc))
    ∧ (∀ (cl : String → Option String) (su : Article → Option String) (t : String)
        (sc : List ((String × String) × String)) (articles : List Article),
        (∀ a ∈ articles, alookup sc (a.title, t) = none) →
        List.Pairwise (fun a b : Article => a.title ≠ b.title) articles →
        (summarizeAll cl su t sc articles).2 =
          articles.filterMap (fun a => (su a).map (fun s => freshRec cl t a s)))
    ∧ (get_news_summaries batchOracle 0 emptySysState
          "people development and culture" none).2 =
        QueryResult.success "people development and culture"
          [freshRec batchOracle.classify "people development and culture"
            (batchArticle "t1") "sum t1",
           freshRec batchOracle.classify "people development and culture"
            (batchArticle "t3") "sum t3",
           freshRec batchOracle.classify "people development and culture"
            (batchArticle "t4") "sum t4",
           freshRec batchOracle.classify "people development and culture"
            (batchArticle "t5") "sum t5"]
          false 4 := by
  refine ⟨fun orc nowClock st input uid => gns_total_eq_length orc nowClock st input uid,
    ?_, ?_, by decide⟩
  · intro cl su t sc a
    cases hl : alookup sc (a.title, t) with
    | some s => simp [processArticle, hl]
    | none =>
      cases hsu : su a with
      | some s => simp [processArticle, hl, hsu]
      | none => simp [processArticle, hl, hsu]
  · intro cl su t sc articles
    induction articles generalizing sc with
    | nil =>
      intro _ _
      simp [summarizeAll]
    | cons a rest ih =>
      intro hmiss hpw
      rw [summarizeAll, processArticle, hmiss a (List.mem_cons_self _ _)]
      cases hsu : su a with
      | none =>
        dsimp only
        rcases hs : summarizeAll cl su t sc rest with ⟨scb, recs⟩
        have hrest := ih sc (fun b hb => hmiss b (List.mem_cons_of_mem _ hb))
          (List.Pairwise.sublist (List.sublist_cons_self _ _) hpw)
        rw [hs] at hrest
        simp only [List.filterMap_cons, hsu, Option.map_none]
        exact hrest
      | some s =>
        dsimp only
        rcases hs : summarizeAll cl su t (aset sc (a.title, t) s) rest with ⟨scb, recs⟩
        have hmiss1 : ∀ b ∈ rest, alookup (aset sc (a.title, t) s) (b.title, t) = none := by
          intro b hb
          rw [alookup_aset_ne]
          · exact hmiss b (List.mem_cons_of_mem _ hb)
          · intro heq
            exact (List.rel_of_pairwise_cons hpw hb) (congrArg Prod.fst heq)
        have hrest := ih (aset sc (a.title, t) s) hmiss1
          (List.Pairwise.sublist (List.sublist_cons_self _ _) hpw)
        rw [hs] at hrest
        simp only [List.filterMap_cons, hsu, Option.map_some]
        rw [← hrest]
        rfl

/-- C8 witness: in the concrete batch, `total_articles` is the number of
produced records (4, not the 5 fetched), and the batch output is exactly
the in-order fresh records of the four succeeding articles. -/
theorem partial_failure_containment_witness :
    (4 : Nat) =
      [freshRec batchOracle.classify "people development and culture"
        (batchArticle "t1") "sum t1",
       freshRec batchOracle.classify "people development and culture"
        (batchArticle "t3") "sum t3",
       freshRec batchOracle.classify "people development and culture"
        (batchArticle "t4") "sum t4",
       freshRec batchOracle.classify "people development and culture"
        (batchArticle "t5") "sum t5"].length
    ∧ (summarizeAll batchOracle.classify batchSummarize "people development and culture" []
        [batchArticle "t1", batchArticle "t2", batchArticle "t3", batchArticle "t4",
         batchArticle "t5"]).2 =
      [batchArticle "t1", batchArticle "t2", batchArticle "t3", batchArticle "t4",
       batchArticle "t5"].filterMap
        (fun a => (batchSummarize a).map
          (fun s => freshRec batchOracle.classify "people development and culture" a s)) := by
  constructor
  · exact partial_failure_containment.1 batchOracle 0 emptySysState
      "people development and culture" none "people development and culture" _ false 4
      partial_failure_containment.2.2.2
  · exact partial_failure_containment.2.2.1 batchOracle.classify batchSummarize
      "people development and culture" []
      [batchArticle "t1", batchArticle "t2", batchArticle "t3", batchArticle "t4",
       batchArticle "t5"] (by decide) (by decide)
